import Mathlib

/-!
Verification development for the album-3-instagram-automation scripts.

The repository consists of four small Python scripts chaining HTTP calls:
`github_uploader.py`, `post_story.py`, `upload_and_post_story.py`, and
`exchange_token.py`.  We shallowly embed the decision logic of each script:
responses of the remote services are inputs, and each embedded function
returns both the list of requests/events it emits and its outcome, so that
statements about "which requests are made" and "what is returned" can be
proved directly.
-/

namespace GithubUploader

/-- Metadata of the local input path as the script observes it through
`os.path.exists`, `os.path.isfile` and `os.path.getsize`. -/
structure FileInfo where
  pathExists : Bool
  isRegularFile : Bool
  size : Nat
deriving DecidableEq

/-- The size bound checked locally: `100 * 1024 * 1024` bytes (100 MiB). -/
def sizeLimit : Nat := 100 * 1024 * 1024

/-- Response of the probe GET for the target path: an HTTP status code and,
when the object exists, its current blob revision (the `sha` field of the
JSON body). -/
structure ProbeResponse where
  status_code : Nat
  sha : String
deriving DecidableEq

/-- JSON body of the create-or-replace PUT request, as built by
`upload_to_github`: the `sha` field is optional. -/
structure PutData where
  message : String
  content : String
  branch : String
  sha : Option String
deriving DecidableEq

/-- A network request issued by `upload_to_github`. -/
inductive Request where
  | get
  | put (data : PutData)
deriving DecidableEq

/-- Result of the upload step: fatal exit with code 1, or the raw
download URL. -/
inductive UploadOutcome where
  | exit1
  | success (rawUrl : String)
deriving DecidableEq

/-- The PUT body built by `upload_to_github` (lines 95-107): the base dict
carries message, content and branch; when the probe returned HTTP 200 the
`sha` field of the probe body is added and the message switches from
"Upload" to "Update". -/
def buildPutData (fileName encoded branch : String) (probe : ProbeResponse) :
    PutData :=
  let base : PutData :=
    { message := "Upload " ++ fileName ++ " via Album 3 Instagram automation",
      content := encoded, branch := branch, sha := none }
  if probe.status_code = 200 then
    { base with
      sha := some probe.sha,
      message := "Update " ++ fileName ++ " via Album 3 Instagram automation" }
  else base

/-- `upload_to_github` (github_uploader.py, lines 52-127): validates the
local file (existence, regular-file, size ≤ 100 MiB) before any network
request, then issues the probe GET followed by the PUT; a 200/201 PUT
status yields the download URL, anything else is a fatal exit.  The
function returns the list of requests issued together with the outcome. -/
def upload_to_github (f : FileInfo) (fileName encoded branch : String)
    (probe : ProbeResponse) (putStatus : Nat) (downloadUrl : String) :
    List Request × UploadOutcome :=
  if ¬ f.pathExists then ([], .exit1)
  else if ¬ f.isRegularFile then ([], .exit1)
  else if f.size > sizeLimit then ([], .exit1)
  else
    let data := buildPutData fileName encoded branch probe
    if putStatus = 200 ∨ putStatus = 201 then
      ([.get, .put data], .success downloadUrl)
    else
      ([.get, .put data], .exit1)

end GithubUploader

/-- Python's `str.upper()` as used on the command-line media-type
argument, embedded as per-character uppercasing of the string's
characters (the arguments of interest are ASCII, where the two agree). -/
def pyUpper (s : String) : String := ⟨s.data.map Char.toUpper⟩

namespace Poll

/-- JSON body of a container-status poll response: the optional
`status_code` field and whether an `id` field is present. -/
structure StatusResponse where
  status_code : Option String
  hasId : Bool
deriving DecidableEq

/-- An observable action of the poll function: a GET of the status
endpoint (indexed by how many polls preceded it) or a sleep of the given
number of seconds. -/
inductive Event where
  | poll (idx : Nat)
  | sleep (secs : Nat)
deriving DecidableEq

/-- Outcome of a fuel-indexed run of the poll function: a boolean return
value, or fuel exhaustion while the recursion is still going. -/
inductive PollOutcome where
  | result (b : Bool)
  | spinning
deriving DecidableEq

end Poll

namespace PostStory

open Poll

/-- `check_media_status` of post_story.py (lines 117-146), fuel-indexed.
`resp` gives the JSON body answered to the n-th poll request.  FINISHED
returns True, IN_PROGRESS sleeps 5 seconds and recurses, FAILED and any
other status return False.  Each call issues exactly one GET. -/
def check_media_status (resp : Nat → StatusResponse) :
    Nat → Nat → List Event × PollOutcome
  | 0, _ => ([], .spinning)
  | fuel+1, i =>
    let r := resp i
    if r.status_code = some "FINISHED" then ([.poll i], .result true)
    else if r.status_code = some "IN_PROGRESS" then
      let rest := check_media_status resp fuel (i+1)
      (.poll i :: .sleep 5 :: rest.1, rest.2)
    else if r.status_code = some "FAILED" then ([.poll i], .result false)
    else ([.poll i], .result false)

/-- Request payload built by `upload_media` of post_story.py
(lines 62-73): base dict with `media_type` and `media_url`; IMAGE adds
`is_share_to_story`; VIDEO adds `video_url`, rewrites `media_type` to
REELS and adds `is_share_to_story`. -/
structure MediaPayload where
  media_type : Option String
  media_url : Option String
  video_url : Option String
  image_url : Option String
  is_share_to_story : Option Bool
deriving DecidableEq

/-- Payload construction of `upload_media` in post_story.py. -/
def upload_media_payload (media_url media_type : String) : MediaPayload :=
  let d : MediaPayload :=
    { media_type := some media_type, media_url := some media_url,
      video_url := none, image_url := none, is_share_to_story := none }
  if media_type = "IMAGE" then { d with is_share_to_story := some true }
  else if media_type = "VIDEO" then
    { d with video_url := some media_url, media_type := some "REELS",
             is_share_to_story := some true }
  else d

/-- Command-line media-type validation in `main` of post_story.py
(lines 154-159): the second positional argument is uppercased, then
rejected unless it is VIDEO or IMAGE.  `some mt` models proceeding with
the uppercased tag, `none` models printing usage and exiting 1. -/
def parse_media_type (arg : String) : Option String :=
  let media_type := pyUpper arg
  if media_type = "VIDEO" ∨ media_type = "IMAGE" then some media_type
  else none

end PostStory

namespace UploadAndPostStory

open Poll

/-- `check_media_status` of upload_and_post_story.py (lines 130-174),
fuel-indexed.  Differences from post_story.py: it takes the media type,
returns True immediately when `status_code` is missing and the media type
is IMAGE, and in the unknown-status branch returns True exactly when the
response has an `id` field. -/
def check_media_status (media_type : String) (resp : Nat → StatusResponse) :
    Nat → Nat → List Event × PollOutcome
  | 0, _ => ([], .spinning)
  | fuel+1, i =>
    let r := resp i
    if r.status_code = none ∧ media_type = "IMAGE" then
      ([.poll i], .result true)
    else if r.status_code = some "FINISHED" then ([.poll i], .result true)
    else if r.status_code = some "IN_PROGRESS" then
      let rest := check_media_status media_type resp fuel (i+1)
      (.poll i :: .sleep 5 :: rest.1, rest.2)
    else if r.status_code = some "FAILED" then ([.poll i], .result false)
    else if r.hasId then ([.poll i], .result true)
    else ([.poll i], .result false)

/-- Payload construction of `upload_media` in upload_and_post_story.py
(lines 73-81): empty dict; IMAGE sets `media_type` STORIES and
`image_url`; VIDEO sets `media_type` STORIES and `video_url`.  No
`is_share_to_story` field is ever set. -/
def upload_media_payload (media_url media_type : String) :
    PostStory.MediaPayload :=
  let d : PostStory.MediaPayload :=
    { media_type := none, media_url := none, video_url := none,
      image_url := none, is_share_to_story := none }
  if media_type = "IMAGE" then
    { d with media_type := some "STORIES", image_url := some media_url }
  else if media_type = "VIDEO" then
    { d with media_type := some "STORIES", video_url := some media_url }
  else d

/-- Command-line media-type validation in `main` of
upload_and_post_story.py (lines 182-187); identical logic to
post_story.py. -/
def parse_media_type (arg : String) : Option String :=
  let media_type := pyUpper arg
  if media_type = "VIDEO" ∨ media_type = "IMAGE" then some media_type
  else none

end UploadAndPostStory

namespace ExchangeToken

/-- Token-endpoint response: HTTP success flag (2xx, so that
`raise_for_status` does not throw) and the optional `access_token` and
`expires_in` fields of the JSON body. -/
structure TokenResponse where
  ok : Bool
  access_token : Option String
  expires_in : Option Nat
deriving DecidableEq

/-- Result of `exchange_token`: the returned credential (None on any
failure) and the validity window in days that is reported when
`expires_in` is present. -/
structure ExchangeResult where
  token : Option String
  reportedDays : Option ℚ
deriving DecidableEq

/-- `exchange_token` of exchange_token.py (lines 22-59).  The input
`none` models a transport failure of the single GET (the
`RequestException` path); `some r` with `r.ok = false` models a non-2xx
status raised by `raise_for_status` and caught by the same handler.  On a
2xx body containing `access_token` the credential is returned, and when
`expires_in` is present the validity window `expires_in / 86400` days is
reported.  Every call issues exactly one request, counted in the first
component. -/
def exchange_token (response : Option TokenResponse) :
    Nat × ExchangeResult :=
  match response with
  | none => (1, { token := none, reportedDays := none })
  | some r =>
    if r.ok then
      match r.access_token with
      | some tok =>
        (1, { token := some tok,
              reportedDays := r.expires_in.map (fun e => (e : ℚ) / 86400) })
      | none => (1, { token := none, reportedDays := none })
    else (1, { token := none, reportedDays := none })

end ExchangeToken

section Theorems

open GithubUploader Poll ExchangeToken

/-- Claim C1: when the probe GET returns HTTP 200, the subsequent PUT body
includes the revision token (the sha of the probe response); for any
non-200 probe status the PUT body omits the sha field.  The first
conjunct pins down that (for a valid local file) the request trace is
exactly the probe GET followed by one PUT carrying `buildPutData`; the
rest settles the sha field of that body. -/
theorem c1_put_includes_sha_iff_probe_200 (f : FileInfo)
    (fileName encoded branch : String) (probe : ProbeResponse)
    (putStatus : Nat) (url : String)
    (hex : f.pathExists = true) (hreg : f.isRegularFile = true)
    (hsz : f.size ≤ sizeLimit) :
    (upload_to_github f fileName encoded branch probe putStatus url).1 =
      [Request.get, Request.put (buildPutData fileName encoded branch probe)] ∧
    (probe.status_code = 200 →
      (buildPutData fileName encoded branch probe).sha = some probe.sha) ∧
    (probe.status_code ≠ 200 →
      (buildPutData fileName encoded branch probe).sha = none) := by
  refine ⟨?_, ?_, ?_⟩
  · unfold upload_to_github
    simp [hex, hreg, Nat.not_lt.mpr hsz]
    split_ifs <;> rfl
  · intro h
    unfold buildPutData
    simp [h]
  · intro h
    unfold buildPutData
    simp [h]

/-- Witness for C1 at a concrete valid file and probes of status 200 and
404. -/
theorem c1_witness :
    (upload_to_github ⟨true, true, 10240⟩ "photo.png" "enc" "master"
        ⟨200, "abc"⟩ 201 "https://host/media/photo.png").1 =
      [Request.get,
       Request.put (buildPutData "photo.png" "enc" "master" ⟨200, "abc"⟩)] ∧
    (buildPutData "photo.png" "enc" "master" ⟨200, "abc"⟩).sha = some "abc" ∧
    (buildPutData "photo.png" "enc" "master" ⟨404, "abc"⟩).sha = none := by
  refine ⟨?_, ?_, ?_⟩
  · exact (c1_put_includes_sha_iff_probe_200 ⟨true, true, 10240⟩ "photo.png"
      "enc" "master" ⟨200, "abc"⟩ 201 "https://host/media/photo.png" rfl rfl
      (by decide)).1
  · exact (c1_put_includes_sha_iff_probe_200 ⟨true, true, 10240⟩ "photo.png"
      "enc" "master" ⟨200, "abc"⟩ 201 "https://host/media/photo.png" rfl rfl
      (by decide)).2.1 rfl
  · exact (c1_put_includes_sha_iff_probe_200 ⟨true, true, 10240⟩ "photo.png"
      "enc" "master" ⟨404, "abc"⟩ 201 "https://host/media/photo.png" rfl rfl
      (by decide)).2.2 (by decide)

/-- Claim C2: a missing path, or an existing regular file strictly larger
than 100 MiB, makes the upload step exit with code 1 having issued no
network request (empty request trace); a file of exactly 100 MiB passes
the local checks, so the probe GET is issued. -/
theorem c2_local_validation (f : FileInfo) (fileName encoded branch : String)
    (probe : ProbeResponse) (putStatus : Nat) (url : String) :
    (f.pathExists = false →
      upload_to_github f fileName encoded branch probe putStatus url =
        ([], UploadOutcome.exit1)) ∧
    (f.pathExists = true → f.isRegularFile = true → f.size > sizeLimit →
      upload_to_github f fileName encoded branch probe putStatus url =
        ([], UploadOutcome.exit1)) ∧
    (f.pathExists = true → f.isRegularFile = true → f.size = sizeLimit →
      (upload_to_github f fileName encoded branch probe putStatus url).1.head? =
        some Request.get) := by
  refine ⟨?_, ?_, ?_⟩
  · intro h
    unfold upload_to_github
    simp [h]
  · intro h1 h2 h3
    unfold upload_to_github
    simp [h1, h2, h3]
  · intro h1 h2 h3
    unfold upload_to_github
    simp [h1, h2, h3]
    split_ifs <;> rfl

/-- Witness for C2: a missing file, a 100 MiB + 1 byte file, and an
exactly 100 MiB file. -/
theorem c2_witness :
    upload_to_github ⟨false, false, 0⟩ "a" "e" "master" ⟨404, ""⟩ 201 "u" =
      ([], UploadOutcome.exit1) ∧
    upload_to_github ⟨true, true, 104857601⟩ "a" "e" "master" ⟨404, ""⟩ 201 "u" =
      ([], UploadOutcome.exit1) ∧
    (upload_to_github ⟨true, true, 104857600⟩ "a" "e" "master" ⟨404, ""⟩ 201 "u").1.head? =
      some Request.get := by
  refine ⟨?_, ?_, ?_⟩
  · exact (c2_local_validation ⟨false, false, 0⟩ "a" "e" "master" ⟨404, ""⟩
      201 "u").1 rfl
  · exact (c2_local_validation ⟨true, true, 104857601⟩ "a" "e" "master"
      ⟨404, ""⟩ 201 "u").2.1 rfl rfl (by decide)
  · exact (c2_local_validation ⟨true, true, 104857600⟩ "a" "e" "master"
      ⟨404, ""⟩ 201 "u").2.2 rfl rfl (by decide)

end Theorems


section PollTheorems

open Poll

/-- One-step unfolding of post_story's poll at positive fuel. -/
theorem postStory_check_step (resp : Nat → StatusResponse) (n i : Nat) :
    PostStory.check_media_status resp (n+1) i =
      if (resp i).status_code = some "FINISHED" then
        ([Event.poll i], PollOutcome.result true)
      else if (resp i).status_code = some "IN_PROGRESS" then
        (Event.poll i :: Event.sleep 5 ::
           (PostStory.check_media_status resp n (i+1)).1,
         (PostStory.check_media_status resp n (i+1)).2)
      else if (resp i).status_code = some "FAILED" then
        ([Event.poll i], PollOutcome.result false)
      else ([Event.poll i], PollOutcome.result false) := rfl

/-- One-step unfolding of upload_and_post_story's poll at positive
fuel. -/
theorem uploadAndPost_check_step (mt : String) (resp : Nat → StatusResponse)
    (n i : Nat) :
    UploadAndPostStory.check_media_status mt resp (n+1) i =
      if (resp i).status_code = none ∧ mt = "IMAGE" then
        ([Event.poll i], PollOutcome.result true)
      else if (resp i).status_code = some "FINISHED" then
        ([Event.poll i], PollOutcome.result true)
      else if (resp i).status_code = some "IN_PROGRESS" then
        (Event.poll i :: Event.sleep 5 ::
           (UploadAndPostStory.check_media_status mt resp n (i+1)).1,
         (UploadAndPostStory.check_media_status mt resp n (i+1)).2)
      else if (resp i).status_code = some "FAILED" then
        ([Event.poll i], PollOutcome.result false)
      else if (resp i).hasId then ([Event.poll i], PollOutcome.result true)
      else ([Event.poll i], PollOutcome.result false) := rfl

/-- With positive fuel, the first emitted event of post_story's poll is
the GET at the current index. -/
theorem postStory_trace_starts_with_poll (resp : Nat → StatusResponse)
    (n i : Nat) :
    ∃ rest, (PostStory.check_media_status resp (n+1) i).1 =
      Event.poll i :: rest := by
  rw [postStory_check_step]
  split_ifs <;> exact ⟨_, rfl⟩

/-- With positive fuel, the first emitted event of upload_and_post_story's
poll is the GET at the current index. -/
theorem uploadAndPost_trace_starts_with_poll (mt : String)
    (resp : Nat → StatusResponse) (n i : Nat) :
    ∃ rest, (UploadAndPostStory.check_media_status mt resp (n+1) i).1 =
      Event.poll i :: rest := by
  rw [uploadAndPost_check_step]
  split_ifs <;> exact ⟨_, rfl⟩

/-- Claim C3: in both implementations, when the poll at index i answers
IN_PROGRESS, the function sleeps 5 seconds and then issues exactly one
further poll request (the GET at index i+1 is the next emitted event,
with nothing in between), after which the run continues as a fresh
evaluation from index i+1 (same final outcome). -/
theorem c3_in_progress_sleeps_then_polls_once (resp : Nat → StatusResponse)
    (i n : Nat) (h : (resp i).status_code = some "IN_PROGRESS") :
    ((PostStory.check_media_status resp (n+2) i).1 =
        Event.poll i :: Event.sleep 5 ::
          (PostStory.check_media_status resp (n+1) (i+1)).1 ∧
      (PostStory.check_media_status resp (n+2) i).2 =
        (PostStory.check_media_status resp (n+1) (i+1)).2 ∧
      ∃ rest, (PostStory.check_media_status resp (n+1) (i+1)).1 =
        Event.poll (i+1) :: rest) ∧
    (∀ mt, (UploadAndPostStory.check_media_status mt resp (n+2) i).1 =
        Event.poll i :: Event.sleep 5 ::
          (UploadAndPostStory.check_media_status mt resp (n+1) (i+1)).1 ∧
      (UploadAndPostStory.check_media_status mt resp (n+2) i).2 =
        (UploadAndPostStory.check_media_status mt resp (n+1) (i+1)).2 ∧
      ∃ rest, (UploadAndPostStory.check_media_status mt resp (n+1) (i+1)).1 =
        Event.poll (i+1) :: rest) := by
  constructor
  · refine ⟨?_, ?_, postStory_trace_starts_with_poll resp n (i+1)⟩
    · show (PostStory.check_media_status resp ((n+1)+1) i).1 = _
      rw [postStory_check_step]
      simp [h]
    · show (PostStory.check_media_status resp ((n+1)+1) i).2 = _
      rw [postStory_check_step]
      simp [h]
  · intro mt
    refine ⟨?_, ?_, uploadAndPost_trace_starts_with_poll mt resp n (i+1)⟩
    · show (UploadAndPostStory.check_media_status mt resp ((n+1)+1) i).1 = _
      rw [uploadAndPost_check_step]
      simp [h]
    · show (UploadAndPostStory.check_media_status mt resp ((n+1)+1) i).2 = _
      rw [uploadAndPost_check_step]
      simp [h]

/-- A response stream answering IN_PROGRESS at index 0 and FINISHED
afterwards, used to instantiate C3. -/
def c3Resp : Nat → StatusResponse := fun j =>
  if j = 0 then { status_code := some "IN_PROGRESS", hasId := true }
  else { status_code := some "FINISHED", hasId := true }

/-- Witness for C3 at the concrete stream `c3Resp`. -/
theorem c3_witness :
    (PostStory.check_media_status c3Resp 2 0).1 =
      Event.poll 0 :: Event.sleep 5 ::
        (PostStory.check_media_status c3Resp 1 1).1 ∧
    (UploadAndPostStory.check_media_status "VIDEO" c3Resp 2 0).1 =
      Event.poll 0 :: Event.sleep 5 ::
        (UploadAndPostStory.check_media_status "VIDEO" c3Resp 1 1).1 := by
  have h := c3_in_progress_sleeps_then_polls_once c3Resp 0 0 (by decide)
  exact ⟨h.1.1, (h.2 "VIDEO").1⟩

/-- Claim C4: in both implementations, a FINISHED poll response makes the
function return True after that single GET (no sleep, no further
request), and a FAILED response makes it return False after that single
GET. -/
theorem c4_finished_and_failed_are_terminal (resp : Nat → StatusResponse)
    (i n : Nat) :
    ((resp i).status_code = some "FINISHED" →
      PostStory.check_media_status resp (n+1) i =
        ([Event.poll i], PollOutcome.result true) ∧
      ∀ mt, UploadAndPostStory.check_media_status mt resp (n+1) i =
        ([Event.poll i], PollOutcome.result true)) ∧
    ((resp i).status_code = some "FAILED" →
      PostStory.check_media_status resp (n+1) i =
        ([Event.poll i], PollOutcome.result false) ∧
      ∀ mt, UploadAndPostStory.check_media_status mt resp (n+1) i =
        ([Event.poll i], PollOutcome.result false)) := by
  constructor
  · intro h
    constructor
    · rw [postStory_check_step]
      simp [h]
    · intro mt
      rw [uploadAndPost_check_step]
      simp [h]
  · intro h
    constructor
    · rw [postStory_check_step]
      simp [h]
    · intro mt
      rw [uploadAndPost_check_step]
      simp [h]

/-- A constant FINISHED response stream. -/
def finishedResp : Nat → StatusResponse := fun _ =>
  { status_code := some "FINISHED", hasId := true }

/-- A constant FAILED response stream. -/
def failedResp : Nat → StatusResponse := fun _ =>
  { status_code := some "FAILED", hasId := true }

/-- Witness for C4 at constant FINISHED and FAILED streams. -/
theorem c4_witness :
    PostStory.check_media_status finishedResp 1 0 =
      ([Event.poll 0], PollOutcome.result true) ∧
    UploadAndPostStory.check_media_status "IMAGE" finishedResp 1 0 =
      ([Event.poll 0], PollOutcome.result true) ∧
    PostStory.check_media_status failedResp 1 0 =
      ([Event.poll 0], PollOutcome.result false) ∧
    UploadAndPostStory.check_media_status "VIDEO" failedResp 1 0 =
      ([Event.poll 0], PollOutcome.result false) := by
  have h1 := (c4_finished_and_failed_are_terminal finishedResp 0 0).1 (by decide)
  have h2 := (c4_finished_and_failed_are_terminal failedResp 0 0).2 (by decide)
  exact ⟨h1.1, h1.2 "IMAGE", h2.1, h2.2 "VIDEO"⟩

/-- Claim C8: if every poll answers IN_PROGRESS, neither implementation
ever returns: for every finite fuel bound the fuel-indexed run is still
spinning, i.e. no number of attempts suffices (no attempt cap or overall
timeout exists). -/
theorem c8_all_in_progress_never_returns (resp : Nat → StatusResponse)
    (h : ∀ j, (resp j).status_code = some "IN_PROGRESS") (fuel i : Nat) :
    (PostStory.check_media_status resp fuel i).2 = PollOutcome.spinning ∧
    ∀ mt, (UploadAndPostStory.check_media_status mt resp fuel i).2 =
      PollOutcome.spinning := by
  induction fuel generalizing i with
  | zero => exact ⟨rfl, fun _ => rfl⟩
  | succ m ih =>
    constructor
    · rw [postStory_check_step]
      simp [h i]
      exact (ih (i+1)).1
    · intro mt
      rw [uploadAndPost_check_step]
      simp [h i]
      exact (ih (i+1)).2 mt

/-- A constant IN_PROGRESS response stream. -/
def inProgressResp : Nat → StatusResponse := fun _ =>
  { status_code := some "IN_PROGRESS", hasId := true }

/-- Witness for C8: with three units of fuel on a constant IN_PROGRESS
stream, both implementations are still spinning. -/
theorem c8_witness :
    (PostStory.check_media_status inProgressResp 3 0).2 =
      PollOutcome.spinning ∧
    (UploadAndPostStory.check_media_status "VIDEO" inProgressResp 3 0).2 =
      PollOutcome.spinning := by
  have h := c8_all_in_progress_never_returns inProgressResp
    (fun _ => rfl) 3 0
  exact ⟨h.1, h.2 "VIDEO"⟩

end PollTheorems

section RemainingTheorems

open Poll ExchangeToken

/-- A response with a missing status field and no id field. -/
def missingStatusNoIdResp : Nat → StatusResponse := fun _ =>
  { status_code := none, hasId := false }

/-- Counterexample to C5 as stated: for the media-kind IMAGE and a
response with a missing status (which is neither FINISHED, IN_PROGRESS
nor FAILED) and no id field, upload_and_post_story's check_media_status
returns success, contradicting the claim that it returns failure
whenever the id field is absent. -/
theorem c5_counterexample :
    (missingStatusNoIdResp 0).status_code = none ∧
    (missingStatusNoIdResp 0).hasId = false ∧
    (UploadAndPostStory.check_media_status "IMAGE" missingStatusNoIdResp
      1 0).2 = PollOutcome.result true := by
  decide

/-- Claim C5 (amended): for a response whose status is neither FINISHED,
IN_PROGRESS nor FAILED, post_story's check_media_status returns failure
unconditionally; upload_and_post_story's returns success exactly when
the response has an id field — except that for media-kind IMAGE with a
missing status field it returns success regardless; consequently, on any
such response carrying an id the two implementations disagree. -/
theorem c5_unknown_status_divergence (resp : Nat → StatusResponse) (i : Nat)
    (h1 : (resp i).status_code ≠ some "FINISHED")
    (h2 : (resp i).status_code ≠ some "IN_PROGRESS")
    (h3 : (resp i).status_code ≠ some "FAILED") :
    (∀ n, (PostStory.check_media_status resp (n+1) i).2 =
      PollOutcome.result false) ∧
    (∀ mt n, ¬((resp i).status_code = none ∧ mt = "IMAGE") →
      (UploadAndPostStory.check_media_status mt resp (n+1) i).2 =
        PollOutcome.result (resp i).hasId) ∧
    (∀ n, (resp i).status_code = none →
      (UploadAndPostStory.check_media_status "IMAGE" resp (n+1) i).2 =
        PollOutcome.result true) ∧
    (∀ mt n, (resp i).hasId = true →
      (UploadAndPostStory.check_media_status mt resp (n+1) i).2 ≠
        (PostStory.check_media_status resp (n+1) i).2) := by
  refine ⟨?_, ?_, ?_, ?_⟩
  · intro n
    rw [postStory_check_step]
    simp [h1, h2, h3]
  · intro mt n hmt
    rw [uploadAndPost_check_step]
    simp only [hmt, if_false]
    cases hid : (resp i).hasId <;> simp [h1, h2, h3, hid]
  · intro n h0
    rw [uploadAndPost_check_step]
    simp [h0]
  · intro mt n hid
    rw [postStory_check_step, uploadAndPost_check_step]
    simp [h1, h2, h3, hid]

/-- A response with an unrecognized status EXPIRED that carries an id. -/
def unknownStatusResp : Nat → StatusResponse := fun _ =>
  { status_code := some "EXPIRED", hasId := true }

/-- Witness for the amended C5 on the EXPIRED response: post_story fails,
upload_and_post_story disagrees with it. -/
theorem c5_witness :
    (PostStory.check_media_status unknownStatusResp 1 0).2 =
      PollOutcome.result false ∧
    (UploadAndPostStory.check_media_status "VIDEO" unknownStatusResp 1 0).2 ≠
      (PostStory.check_media_status unknownStatusResp 1 0).2 := by
  have h := c5_unknown_status_divergence unknownStatusResp 0
    (by decide) (by decide) (by decide)
  exact ⟨h.1 0, h.2.2.2 "VIDEO" 0 rfl⟩

/-- Counterexample to C6 as stated: with media-kind IMAGE the poll does
not treat the media as ready regardless of the reported status — a
FAILED response yields failure, and an IN_PROGRESS response sleeps and
polls again (trace with two polls and two sleeps at fuel 2). -/
theorem c6_counterexample :
    (UploadAndPostStory.check_media_status "IMAGE" failedResp 1 0).2 =
      PollOutcome.result false ∧
    (UploadAndPostStory.check_media_status "IMAGE" inProgressResp 2 0).1 =
      [Event.poll 0, Event.sleep 5, Event.poll 1, Event.sleep 5] := by
  decide

/-- Claim C6 (amended): in upload_and_post_story.py with media-kind
IMAGE, when the status poll response carries no status field the
function returns success immediately after the single probe GET, with no
sleep and no further request. -/
theorem c6_image_missing_status_short_circuit (resp : Nat → StatusResponse)
    (i n : Nat) (h : (resp i).status_code = none) :
    UploadAndPostStory.check_media_status "IMAGE" resp (n+1) i =
      ([Event.poll i], PollOutcome.result true) := by
  rw [uploadAndPost_check_step]
  simp [h]

/-- Witness for the amended C6 at a concrete missing-status response. -/
theorem c6_witness :
    UploadAndPostStory.check_media_status "IMAGE" missingStatusNoIdResp 1 0 =
      ([Event.poll 0], PollOutcome.result true) :=
  c6_image_missing_status_short_circuit missingStatusNoIdResp 0 0 rfl

/-- Counterexample to C7 as stated: in upload_and_post_story.py the IMAGE
payload does not set the share-to-story flag, and the VIDEO payload's
media_type equals the IMAGE payload's media_type (both STORIES) rather
than being distinct. -/
theorem c7_counterexample :
    (UploadAndPostStory.upload_media_payload "u" "IMAGE").is_share_to_story =
      none ∧
    (UploadAndPostStory.upload_media_payload "u" "VIDEO").media_type =
      (UploadAndPostStory.upload_media_payload "u" "IMAGE").media_type := by
  decide

/-- Claim C7 (amended): in post_story.py the IMAGE payload sets
is_share_to_story and keeps media_type IMAGE, while the VIDEO payload
sets is_share_to_story, adds video_url and rewrites media_type to REELS
(distinct from the value sent for images); in upload_and_post_story.py
both kinds send media_type STORIES with no is_share_to_story flag,
differing only in image_url versus video_url. -/
theorem c7_payload_shapes (u : String) :
    PostStory.upload_media_payload u "IMAGE" =
      { media_type := some "IMAGE", media_url := some u, video_url := none,
        image_url := none, is_share_to_story := some true } ∧
    PostStory.upload_media_payload u "VIDEO" =
      { media_type := some "REELS", media_url := some u, video_url := some u,
        image_url := none, is_share_to_story := some true } ∧
    UploadAndPostStory.upload_media_payload u "IMAGE" =
      { media_type := some "STORIES", media_url := none, video_url := none,
        image_url := some u, is_share_to_story := none } ∧
    UploadAndPostStory.upload_media_payload u "VIDEO" =
      { media_type := some "STORIES", media_url := none, video_url := some u,
        image_url := none, is_share_to_story := none } := by
  refine ⟨?_, ?_, ?_, ?_⟩ <;> rfl

/-- Claim C9: exchange_token issues exactly one request per call; on a
2xx response whose body carries access_token it returns that credential
and, when expires_in is present, reports a validity window of
expires_in / 86400 days; when the body lacks the credential, the
transport fails, or the status is non-2xx, it returns None. -/
theorem c9_exchange_token_behaviour (response : Option TokenResponse) :
    (exchange_token response).1 = 1 ∧
    (∀ r, response = some r → r.ok = true →
      ∀ tok, r.access_token = some tok →
        (exchange_token response).2.token = some tok ∧
        ∀ e, r.expires_in = some e →
          (exchange_token response).2.reportedDays = some ((e : ℚ) / 86400)) ∧
    (response = none → (exchange_token response).2.token = none) ∧
    (∀ r, response = some r → r.ok = false →
      (exchange_token response).2.token = none) ∧
    (∀ r, response = some r → r.access_token = none →
      (exchange_token response).2.token = none) := by
  cases response with
  | none =>
    exact ⟨rfl, fun r hr => Option.noConfusion hr, fun _ => rfl,
      fun r hr => Option.noConfusion hr, fun r hr => Option.noConfusion hr⟩
  | some r =>
    refine ⟨?_, ?_, ?_, ?_, ?_⟩
    · rcases r with ⟨ok, tok, ei⟩
      cases ok <;> cases tok <;> rfl
    · rintro r2 hr hok tok htok
      cases hr
      constructor
      · simp [exchange_token, hok, htok]
      · intro e he
        simp [exchange_token, hok, htok, he]
    · intro h
      exact Option.noConfusion h
    · rintro r2 hr hok
      cases hr
      simp [exchange_token, hok]
    · rintro r2 hr htok
      cases hr
      cases hok : r.ok <;> simp [exchange_token, hok, htok]

/-- Witness for C9: a successful exchange reporting 5184000 seconds
(60 days), and a transport failure. -/
theorem c9_witness :
    (exchange_token (some ⟨true, some "newtok", some 5184000⟩)).1 = 1 ∧
    (exchange_token (some ⟨true, some "newtok", some 5184000⟩)).2.token =
      some "newtok" ∧
    (exchange_token (some ⟨true, some "newtok", some 5184000⟩)).2.reportedDays =
      some 60 ∧
    (exchange_token none).2.token = none := by
  have h := c9_exchange_token_behaviour (some ⟨true, some "newtok", some 5184000⟩)
  have h0 := c9_exchange_token_behaviour none
  refine ⟨h.1, (h.2.1 _ rfl rfl "newtok" rfl).1, ?_, h0.2.2.1 rfl⟩
  have he := (h.2.1 _ rfl rfl "newtok" rfl).2 5184000 rfl
  rw [he]
  norm_num

/-- Claim C10: in both entry scripts the media-kind argument is
uppercased before validation: any string whose uppercased form is VIDEO
or IMAGE is accepted (the script proceeds with the uppercased tag), and
any other string is rejected (usage printed, non-zero exit). -/
theorem c10_media_type_case_insensitive (s : String) :
    ((pyUpper s = "VIDEO" ∨ pyUpper s = "IMAGE") →
      PostStory.parse_media_type s = some (pyUpper s) ∧
      UploadAndPostStory.parse_media_type s = some (pyUpper s)) ∧
    (¬(pyUpper s = "VIDEO" ∨ pyUpper s = "IMAGE") →
      PostStory.parse_media_type s = none ∧
      UploadAndPostStory.parse_media_type s = none) := by
  constructor
  · intro h
    constructor
    · simp only [PostStory.parse_media_type]
      rw [if_pos h]
    · simp only [UploadAndPostStory.parse_media_type]
      rw [if_pos h]
  · intro h
    constructor
    · simp only [PostStory.parse_media_type]
      rw [if_neg h]
    · simp only [UploadAndPostStory.parse_media_type]
      rw [if_neg h]

/-- Witness for C10 on the lowercase, mixed-case and invalid arguments
of the claim. -/
theorem c10_witness :
    PostStory.parse_media_type "video" = some "VIDEO" ∧
    UploadAndPostStory.parse_media_type "Image" = some "IMAGE" ∧
    PostStory.parse_media_type "gif" = none ∧
    UploadAndPostStory.parse_media_type "gif" = none := by
  have e1 : pyUpper "video" = "VIDEO" := by decide
  have e2 : pyUpper "Image" = "IMAGE" := by decide
  have h1 := ((c10_media_type_case_insensitive "video").1 (Or.inl e1)).1
  have h2 := ((c10_media_type_case_insensitive "Image").1 (Or.inr e2)).2
  have h3 := (c10_media_type_case_insensitive "gif").2 (by decide)
  rw [e1] at h1
  rw [e2] at h2
  exact ⟨h1, h2, h3.1, h3.2⟩

end RemainingTheorems
